import Mathlib

/-!
Verification of the KIT-Today backend's diary/attendance/analysis core.

This file shallowly embeds the relevant parts of the FastAPI + SQLModel
source (app/crud/attendance.py, app/crud/diary.py, app/crud/user.py,
app/api/diary.py, app/services/ai_services.py, app/models/tables.py) as
pure Lean functions over an explicit relational database state, and proves
or refutes the specification claims about them.

Modelling conventions:
- Calendar dates are day numbers (`Nat`); `today` is an explicit parameter
  (the source computes it from the KST clock).
- JSON objects (the diary `keywords` dict) are modelled as association
  lists with structural equality.
- Row timestamps / autoincrement primary keys are drawn from a single
  monotone counter `DB.nextId`, matching `created_at` insertion order.
- A SQLAlchemy session's pending transaction is modelled by threading the
  state through the steps of an operation; rollback returns the initial
  state, commit returns the final one.
- `float` scores are carried as `Int`; no claim computes on them.
-/

/-- JSON objects (diary keyword maps) as association lists. -/
abbrev KMap := List (String × String)

/-- Row of the `users` table (fields used by the claims). -/
structure UserRow where
  user_id : Nat
  last_att_date : Option Nat
  current_streak : Nat
  fcm_token : Option String
  persona : Option Nat
  deriving Repr, DecidableEq

/-- Row of the `attendance` table. -/
structure AttRow where
  user_id : Nat
  att_date : Nat
  deriving Repr, DecidableEq

/-- Row of the `diaries` table. -/
structure DiaryRow where
  diary_id : Nat
  user_id : Nat
  content : Option String
  keywords : Option KMap
  input_type : String
  image_url : Option String
  deriving Repr, DecidableEq

/-- Row of the `emotion_analysis` table. -/
structure AnalysisRow where
  analysis_id : Nat
  diary_id : Nat
  primary_emotion : String
  primary_score : Int
  mbi_category : String
  ai_message : Option String
  created_at : Nat
  deriving Repr, DecidableEq

/-- Row of the `solution_logs` table. -/
structure SolutionRow where
  log_id : Nat
  diary_id : Nat
  activity_id : Nat
  is_selected : Bool
  is_completed : Bool
  deriving Repr, DecidableEq

/-- Row of the `medals` master table. -/
structure MedalRow where
  medal_id : Nat
  medal_code : String
  deriving Repr, DecidableEq

/-- Row of the `achievements` table. -/
structure AchievementRow where
  achieve_id : Nat
  user_id : Nat
  medal_id : Nat
  is_read : Bool
  deriving Repr, DecidableEq

/-- The relational state the claims range over. -/
structure DB where
  users : List UserRow
  diaries : List DiaryRow
  attendance : List AttRow
  analyses : List AnalysisRow
  solutions : List SolutionRow
  medals : List MedalRow
  achievements : List AchievementRow
  nextId : Nat
  deriving Repr, DecidableEq

/-- `select(User).where(User.user_id == user_id)` (first row). -/
def findUser (db : DB) (uid : Nat) : Option UserRow :=
  db.users.find? (fun u => u.user_id == uid)

/-- `user.last_att_date == today - timedelta(days=1)`; a `None` date
compares unequal to any real date in Python. -/
def isYesterday (last : Option Nat) (today : Nat) : Bool :=
  match last with
  | some d => d + 1 == today
  | none => false

/-- app/crud/attendance.py `create_attendance`: idempotent daily check-in
plus the streak update. Errors are HTTP status codes; the returned `DB` is
the session's pending state (the source flushes but defers the commit to
the caller). -/
def create_attendance (db : DB) (uid today : Nat) :
    Except Nat (AttRow × DB) :=
  match db.attendance.find? (fun a => a.user_id == uid && a.att_date == today) with
  | some existing => .ok (existing, db)
  | none =>
    match findUser db uid with
    | none => .error 404
    | some user =>
      let streak := if isYesterday user.last_att_date today then
          user.current_streak + 1 else 1
      let newAtt : AttRow := ⟨uid, today⟩
      .ok (newAtt,
        { db with
          users := db.users.map (fun w =>
            if w.user_id == uid then
              { w with current_streak := streak, last_att_date := some today }
            else w),
          attendance := db.attendance ++ [newAtt] })

/-- Payload of the `DiaryCreate` schema. -/
structure DiaryCreate where
  input_type : String
  content : Option String
  keywords : Option KMap
  deriving Repr, DecidableEq

/-- app/crud/diary.py `create_diary`: adds the diary row and calls
`create_attendance` in the same pending transaction, then commits both; on
any exception inside the unit it rolls back and surfaces HTTP 500.
`ledgerFault` injects a fault in the streak-ledger step (the spec's
"forcing a streak-ledger fault during create"). The second component of
the result is the committed state: the initial `db` on rollback. -/
def create_diary (db : DB) (diary_in : DiaryCreate) (uid : Nat)
    (image_url : Option String) (today : Nat) (ledgerFault : Bool) :
    Except Nat DiaryRow × DB :=
  let d : DiaryRow :=
    ⟨db.nextId, uid, diary_in.content, diary_in.keywords,
      diary_in.input_type, image_url⟩
  let pending : DB := { db with diaries := db.diaries ++ [d], nextId := db.nextId + 1 }
  if ledgerFault then (.error 500, db)
  else
    match create_attendance pending uid today with
    | .error _ => (.error 500, db)
    | .ok (_, committed) => (.ok d, committed)

/-- Number of attendance rows for one (user, day) pair. -/
def attCount (db : DB) (uid d : Nat) : Nat :=
  (db.attendance.filter (fun a => a.user_id == uid && a.att_date == d)).length

/-- Number of diary rows owned by one user. -/
def diaryCount (db : DB) (uid : Nat) : Nat :=
  (db.diaries.filter (fun d => d.user_id == uid)).length

/-- Iterated daily check-ins on consecutive days `start, start+1, ...`;
`none` when any call errors. -/
def runCheckins (uid start : Nat) : Nat → DB → Option DB
  | 0, db => some db
  | k+1, db =>
    match runCheckins uid start k db with
    | none => none
    | some s =>
      match create_attendance s uid (start + k) with
      | .error _ => none
      | .ok (_, s2) => some s2

/-- One recommendation in the AI callback payload. -/
structure AIRec where
  activity_id : Nat
  deriving Repr, DecidableEq

/-- The `AIAnalysisResult` callback schema. -/
structure AIAnalysisResult where
  diary_id : Nat
  primary_emotion : String
  primary_score : Int
  mbi_category : String
  ai_message : String
  recommendations : List AIRec
  deriving Repr, DecidableEq

/-- The `for rec in result.recommendations: db.add(SolutionLog(...))` loop
of the callback handler. -/
def addSolutions (db : DB) (diary_id : Nat) : List AIRec → DB
  | [] => db
  | rec :: rest =>
    addSolutions
      { db with
        solutions := db.solutions ++
          [⟨db.nextId, diary_id, rec.activity_id, false, false⟩],
        nextId := db.nextId + 1 }
      diary_id rest

/-- The join `EmotionAnalysis JOIN Diary WHERE Diary.user_id == user_id`. -/
def analysisOwnedBy (db : DB) (uid : Nat) (a : AnalysisRow) : Bool :=
  db.diaries.any (fun d => d.diary_id == a.diary_id && d.user_id == uid)

/-- Insertion step for sorting analyses by `created_at` descending. -/
def insertByCreatedDesc (a : AnalysisRow) : List AnalysisRow → List AnalysisRow
  | [] => [a]
  | b :: rest =>
    if b.created_at ≤ a.created_at then a :: b :: rest
    else b :: insertByCreatedDesc a rest

/-- `ORDER BY EmotionAnalysis.created_at DESC`. -/
def sortByCreatedDesc : List AnalysisRow → List AnalysisRow
  | [] => []
  | a :: rest => insertByCreatedDesc a (sortByCreatedDesc rest)

/-- The `LIMIT 2` query of `check_and_award_recovery_medal`: the user's
two most recent emotion analyses, newest first. -/
def recentTwo (db : DB) (uid : Nat) : List AnalysisRow :=
  (sortByCreatedDesc (db.analyses.filter (analysisOwnedBy db uid))).take 2

/-- `burnout_states = ["EE", "DP", "PA_LOW"]` in app/crud/user.py. -/
def burnout_states : List String := ["EE", "DP", "PA_LOW"]

/-- app/crud/user.py `check_and_award_recovery_medal`: award the
`RECOVERY_LIGHT` medal on a burnout-to-NORMAL transition over the two most
recent analyses, once per user. Returns the medal row when newly awarded. -/
def check_and_award_recovery_medal (db : DB) (uid : Nat) :
    Option MedalRow × DB :=
  match recentTwo db uid with
  | [current, previous] =>
    if burnout_states.contains previous.mbi_category
        && current.mbi_category == "NORMAL" then
      match db.medals.find? (fun m => m.medal_code == "RECOVERY_LIGHT") with
      | none => (none, db)
      | some medal =>
        match db.achievements.find?
            (fun a => a.user_id == uid && a.medal_id == medal.medal_id) with
        | some _ => (none, db)
        | none =>
          (some medal,
            { db with
              achievements := db.achievements ++
                [⟨db.nextId, uid, medal.medal_id, false⟩],
              nextId := db.nextId + 1 })
    else (none, db)
  | _ => (none, db)

/-- The post-commit notification block of the callback handler: the FCM
push and the medal check run only when the user row exists and carries an
FCM token (`if user and user.fcm_token:`); the push itself does not touch
the database, the medal check may add an achievement. -/
def medalNotificationStep (db : DB) (uid : Nat) : DB :=
  match findUser db uid with
  | some user =>
    if user.fcm_token.isSome then
      (check_and_award_recovery_medal db uid).2
    else db
  | none => db

/-- The committed portion of the callback: insert the EmotionAnalysis row
(category forced to `"NONE"` below 3 diaries) and, at 3 or more diaries,
the SolutionLog rows. -/
def storeAnalysisStep (db : DB) (result : AIAnalysisResult)
    (diary : DiaryRow) : DB :=
  let diary_count := diaryCount db diary.user_id
  let final_mbi := if diary_count < 3 then "NONE" else result.mbi_category
  let emotion : AnalysisRow :=
    ⟨db.nextId, diary.diary_id, result.primary_emotion, result.primary_score,
      final_mbi, some result.ai_message, db.nextId⟩
  let db1 : DB :=
    { db with analyses := emotion :: db.analyses, nextId := db.nextId + 1 }
  if 3 ≤ diary_count then
    addSolutions db1 diary.diary_id result.recommendations
  else db1

/-- app/api/diary.py `receive_ai_result`: the analysis callback handler.
Stores the emotion analysis and any solution logs, commits, then runs the
notification/medal block. Returns the response message. -/
def receive_ai_result (db : DB) (result : AIAnalysisResult) : DB × String :=
  match db.diaries.find? (fun d => d.diary_id == result.diary_id) with
  | none => (db, "Diary not found")
  | some diary =>
    (medalNotificationStep (storeAnalysisStep db result diary) diary.user_id,
      "Analysis & Solutions saved successfully")

/-- The `DiaryUpdate` schema: fields absent or JSON-null arrive as `none`. -/
structure DiaryUpdate where
  input_type : Option String
  content : Option String
  keywords : Option KMap
  deriving Repr, DecidableEq

/-- The `is_content_changed` test of `update_diary_with_image`:
`(diary_in.content is not None and diary_in.content != db_diary.content)
 or (diary_in.keywords is not None and diary_in.keywords != db_diary.keywords)`. -/
def is_content_changed (diary_in : DiaryUpdate) (d : DiaryRow) : Bool :=
  (match diary_in.content with
   | none => false
   | some c => decide (some c ≠ d.content))
  ||
  (match diary_in.keywords with
   | none => false
   | some k => decide (some k ≠ d.keywords))

/-- `diary_in.model_dump(exclude_unset=True, exclude_none=True)` followed by
`setattr` per remaining field: only non-null supplied fields are applied. -/
def applyUpdate (d : DiaryRow) (diary_in : DiaryUpdate) : DiaryRow :=
  { d with
    input_type := match diary_in.input_type with
      | some t => t
      | none => d.input_type,
    content := match diary_in.content with
      | some c => some c
      | none => d.content,
    keywords := match diary_in.keywords with
      | some k => some k
      | none => d.keywords }

/-- `if image_url: db_diary.image_url = image_url`. -/
def applyImage (d : DiaryRow) (image_url : Option String) : DiaryRow :=
  match image_url with
  | some u => { d with image_url := some u }
  | none => d

/-- app/crud/diary.py `update_diary_with_image`: detects content change,
invalidates the diary's analysis and solution logs when changed (the ORM
delete-orphan cascade), applies the partial update, commits, and returns
the updated row and the change flag. -/
def update_diary_with_image (db : DB) (d : DiaryRow) (diary_in : DiaryUpdate)
    (image_url : Option String) : DB × DiaryRow × Bool :=
  let changed := is_content_changed diary_in d
  let db1 := if changed then
      { db with
        analyses := db.analyses.filter (fun a => a.diary_id != d.diary_id),
        solutions := db.solutions.filter (fun s => s.diary_id != d.diary_id) }
    else db
  let d2 := applyImage (applyUpdate d diary_in) image_url
  let db2 := { db1 with
    diaries := db1.diaries.map (fun x => if x.diary_id == d.diary_id then d2 else x) }
  (db2, d2, changed)

/-- `get_diary` scoped to the owner (first matching row). -/
def get_diary (db : DB) (diary_id uid : Nat) : Option DiaryRow :=
  db.diaries.find? (fun d => d.diary_id == diary_id && d.user_id == uid)

/-- Storage-layer `delete-orphan` cascade of deleting one diary row. -/
def removeDiaryCascade (db : DB) (id : Nat) : DB :=
  { db with
    diaries := db.diaries.filter (fun d => d.diary_id != id),
    analyses := db.analyses.filter (fun a => a.diary_id != id),
    solutions := db.solutions.filter (fun s => s.diary_id != id) }

/-- app/crud/diary.py `delete_diary`: loads the diary, and when it carries
an image calls `delete_image_from_s3` with no exception handler before the
row delete and commit; `s3_ok` is the outcome of that external call. An
uncaught storage exception aborts the operation (HTTP 500) with the row
still committed, i.e. the returned state is the initial one. -/
def delete_diary (db : DB) (diary_id uid : Nat) (s3_ok : Bool) :
    Except Nat Unit × DB :=
  match get_diary db diary_id uid with
  | none => (.error 404, db)
  | some d =>
    match d.image_url with
    | some _ =>
      if s3_ok then (.ok (), removeDiaryCascade db d.diary_id)
      else (.error 500, db)
    | none => (.ok (), removeDiaryCascade db d.diary_id)

/-- `request_diary_analysis(diary_id: int, user_id: int, persona: int)` in
app/services/ai_services.py: three required positional parameters. -/
def request_diary_analysis_required_params : Nat := 3

/-- Persona resolution in the create endpoint: the explicit form value,
else the user's stored persona, else the hardcoded fallback 1. -/
def final_persona (explicit userDefault : Option Nat) : Nat :=
  match explicit with
  | some p => p
  | none =>
    match userDefault with
    | some q => q
    | none => 1

/-- The argument list the create endpoint passes to
`background_tasks.add_task(request_diary_analysis, diary_id, user_id,
final_persona)`. -/
def create_scheduled_analysis_args (diary_id uid : Nat)
    (persona userPersona : Option Nat) : List Nat :=
  [diary_id, uid, final_persona persona userPersona]

/-- The argument lists the update endpoint schedules: on `is_changed` it
runs `background_tasks.add_task(request_diary_analysis, diary_id, user_id)`
— two arguments — and otherwise schedules nothing. -/
def update_scheduled_analysis_args (is_changed : Bool) (diary_id uid : Nat) :
    List (List Nat) :=
  if is_changed then [[diary_id, uid]] else []

/-- Whether a scheduled `request_diary_analysis` invocation binds its
signature: Python raises `TypeError` unless every required positional
parameter receives an argument. -/
def analysis_task_binds (args : List Nat) : Bool :=
  args.length == request_diary_analysis_required_params

/-! ## Helper lemmas -/

lemma find?_map_user_update (l : List UserRow) (uid : Nat) (u : UserRow)
    (f : UserRow → UserRow) (hf : ∀ w, (f w).user_id = w.user_id)
    (h : l.find? (fun w => w.user_id == uid) = some u) :
    (l.map (fun w => if w.user_id == uid then f w else w)).find?
      (fun w => w.user_id == uid) = some (f u) := by
  induction l with
  | nil => simp at h
  | cons a l ih =>
    by_cases ha : (a.user_id == uid) = true
    · rw [List.find?_cons, ha] at h
      injection h with h
      subst h
      simp only [List.map_cons, if_pos ha, List.find?_cons]
      rw [hf a, ha]
    · rw [List.find?_cons] at h
      rw [Bool.not_eq_true] at ha
      rw [ha] at h
      simp only [List.map_cons, ha, if_false, List.find?_cons, Bool.false_eq_true]
      exact ih h

lemma create_attendance_existing {db : DB} {uid today : Nat} {a : AttRow}
    (h : db.attendance.find?
      (fun a => a.user_id == uid && a.att_date == today) = some a) :
    create_attendance db uid today = .ok (a, db) := by
  unfold create_attendance
  rw [h]

lemma create_attendance_fresh {db : DB} {uid today : Nat} {u : UserRow}
    (hnone : db.attendance.find?
      (fun a => a.user_id == uid && a.att_date == today) = none)
    (hu : findUser db uid = some u) :
    create_attendance db uid today =
      .ok (⟨uid, today⟩,
        { db with
          users := db.users.map (fun w =>
            if w.user_id == uid then
              { w with
                current_streak :=
                  if isYesterday u.last_att_date today then
                    u.current_streak + 1 else 1,
                last_att_date := some today }
            else w),
          attendance := db.attendance ++ [⟨uid, today⟩] }) := by
  unfold create_attendance
  rw [hnone, hu]

/-- Frame: a successful check-in touches only `users` and `attendance`. -/
lemma create_attendance_frame {db db2 : DB} {uid today : Nat} {r : AttRow}
    (h : create_attendance db uid today = .ok (r, db2)) :
    db2.diaries = db.diaries ∧ db2.analyses = db.analyses ∧
    db2.solutions = db.solutions ∧ db2.medals = db.medals ∧
    db2.achievements = db.achievements ∧ db2.nextId = db.nextId := by
  unfold create_attendance at h
  split at h
  · injection h with h
    injection h with h1 h2
    subst h2
    exact ⟨rfl, rfl, rfl, rfl, rfl, rfl⟩
  · split at h
    · exact absurd h (by simp)
    · injection h with h
      injection h with h1 h2
      subst h2
      exact ⟨rfl, rfl, rfl, rfl, rfl, rfl⟩

/-- A successful check-in returns a row for `(uid, today)` present in the
resulting state. -/
lemma create_attendance_row {db db2 : DB} {uid today : Nat} {r : AttRow}
    (h : create_attendance db uid today = .ok (r, db2)) :
    r.user_id = uid ∧ r.att_date = today ∧ r ∈ db2.attendance := by
  unfold create_attendance at h
  split at h
  · rename_i a hfind
    injection h with h
    injection h with h1 h2
    subst h1; subst h2
    have hp := List.find?_some hfind
    simp only [Bool.and_eq_true, beq_iff_eq] at hp
    exact ⟨hp.1, hp.2, List.mem_of_find?_eq_some hfind⟩
  · split at h
    · exact absurd h (by simp)
    · injection h with h
      injection h with h1 h2
      subst h1; subst h2
      exact ⟨rfl, rfl, by simp⟩

/-! ## C1 -/

/-- **C1**: the diary insert and the attendance/streak update commit
atomically in one transaction: any failure inside the unit (including an
injected streak-ledger fault) rolls the whole transaction back — the
committed state is exactly the initial one, so no diary row is persisted
without its attendance side effect and vice versa — and the generic HTTP
500 failure is surfaced; on success the new diary row and an attendance
row for `(uid, today)` are both in the committed state. -/
theorem create_diary_atomic (db : DB) (diary_in : DiaryCreate) (uid : Nat)
    (img : Option String) (today : Nat) (fault : Bool) :
    (∀ e, (create_diary db diary_in uid img today fault).1 = .error e →
      e = 500 ∧ (create_diary db diary_in uid img today fault).2 = db)
    ∧ (fault = true →
      create_diary db diary_in uid img today fault = (.error 500, db))
    ∧ (∀ d, (create_diary db diary_in uid img today fault).1 = .ok d →
      d ∈ (create_diary db diary_in uid img today fault).2.diaries ∧
      ∃ a ∈ (create_diary db diary_in uid img today fault).2.attendance,
        a.user_id = uid ∧ a.att_date = today) := by
  by_cases hf : fault = true
  · subst hf
    refine ⟨?_, fun _ => rfl, ?_⟩
    · intro e he
      simp only [create_diary, if_pos] at he
      exact ⟨(Except.error.inj he).symm, rfl⟩
    · intro d hd
      simp only [create_diary, if_pos] at hd
      exact absurd hd (by simp)
  · rw [Bool.not_eq_true] at hf
    subst hf
    simp only [create_diary, Bool.false_eq_true, if_false]
    cases hca : create_attendance
        { db with
          diaries := db.diaries ++
            [⟨db.nextId, uid, diary_in.content, diary_in.keywords,
              diary_in.input_type, img⟩],
          nextId := db.nextId + 1 } uid today with
    | error e =>
      refine ⟨?_, fun h => h.elim, ?_⟩
      · intro e2 he
        exact ⟨(Except.error.inj he).symm, rfl⟩
      · intro d hd
        exact absurd hd (by simp)
    | ok p =>
      obtain ⟨r, db2⟩ := p
      refine ⟨?_, fun h => h.elim, ?_⟩
      · intro e2 he
        exact absurd he (by simp)
      · intro d hd
        have hd2 := Except.ok.inj hd
        subst hd2
        have hframe := create_attendance_frame hca
        have hrow := create_attendance_row hca
        constructor
        · rw [hframe.1]
          simp
        · exact ⟨r, hrow.2.2, hrow.1, hrow.2.1⟩

/-- Frame: the medal check mutates only achievements and the id counter. -/
lemma check_and_award_frame (db : DB) (uid : Nat) :
    (check_and_award_recovery_medal db uid).2.analyses = db.analyses ∧
    (check_and_award_recovery_medal db uid).2.solutions = db.solutions ∧
    (check_and_award_recovery_medal db uid).2.diaries = db.diaries ∧
    (check_and_award_recovery_medal db uid).2.users = db.users ∧
    (check_and_award_recovery_medal db uid).2.attendance = db.attendance := by
  unfold check_and_award_recovery_medal
  repeat' split
  all_goals exact ⟨rfl, rfl, rfl, rfl, rfl⟩

/-- Frame: the notification/medal block mutates only achievements and the
id counter. -/
lemma medalNotificationStep_frame (db : DB) (uid : Nat) :
    (medalNotificationStep db uid).analyses = db.analyses ∧
    (medalNotificationStep db uid).solutions = db.solutions ∧
    (medalNotificationStep db uid).diaries = db.diaries ∧
    (medalNotificationStep db uid).users = db.users ∧
    (medalNotificationStep db uid).attendance = db.attendance := by
  unfold medalNotificationStep
  repeat' split
  · exact check_and_award_frame db uid
  all_goals exact ⟨rfl, rfl, rfl, rfl, rfl⟩

/-- The solution-log loop appends one row per recommendation, each linked
to the given diary and carrying the recommended activity, and touches
nothing else of interest. -/
lemma addSolutions_spec (recs : List AIRec) : ∀ (db : DB) (id : Nat),
    (addSolutions db id recs).analyses = db.analyses ∧
    (addSolutions db id recs).solutions.map
        (fun s => (s.diary_id, s.activity_id)) =
      db.solutions.map (fun s => (s.diary_id, s.activity_id)) ++
        recs.map (fun r => (id, r.activity_id)) := by
  induction recs with
  | nil =>
    intro db id
    exact ⟨rfl, by simp [addSolutions]⟩
  | cons r rest ih =>
    intro db id
    unfold addSolutions
    refine ⟨(ih _ _).1, ?_⟩
    rw [(ih _ _).2]
    simp

/-! ## C2 -/

/-- After `k ≥ 1` consecutive daily check-ins starting on day `start` from
a state whose streak run does not extend to `start`, the streak equals
`k`, the last attendance date is the last day checked in, and all of the
user's attendance rows stay below the next day. -/
lemma runCheckins_streak (db : DB) (uid start : Nat) (u : UserRow)
    (hu : findUser db uid = some u)
    (hfresh : isYesterday u.last_att_date start = false)
    (hno : ∀ a ∈ db.attendance, a.user_id = uid → a.att_date < start) :
    ∀ k, 1 ≤ k →
      ∃ db2 u2, runCheckins uid start k db = some db2 ∧
        findUser db2 uid = some u2 ∧
        u2.current_streak = k ∧ u2.last_att_date = some (start + k - 1) ∧
        (∀ a ∈ db2.attendance, a.user_id = uid → a.att_date < start + k) := by
  have fresh_step : ∀ (s : DB) (w : UserRow) (day : Nat),
      findUser s uid = some w →
      (∀ a ∈ s.attendance, a.user_id = uid → a.att_date < day) →
      ∃ s2, create_attendance s uid day = .ok (⟨uid, day⟩, s2) ∧
        findUser s2 uid = some
          { w with
            current_streak := if isYesterday w.last_att_date day then
                w.current_streak + 1 else 1,
            last_att_date := some day } ∧
        (∀ a ∈ s2.attendance, a.user_id = uid → a.att_date < day + 1) := by
    intro s w day hw hbound
    have hnone : s.attendance.find?
        (fun a => a.user_id == uid && a.att_date == day) = none := by
      rw [List.find?_eq_none]
      intro x hx hpx
      simp only [Bool.and_eq_true, beq_iff_eq] at hpx
      exact absurd hpx.2 (Nat.ne_of_lt (hbound x hx hpx.1))
    refine ⟨_, create_attendance_fresh hnone hw, ?_, ?_⟩
    · exact find?_map_user_update s.users uid w _ (fun _ => rfl) hw
    · intro a ha hau
      rcases List.mem_append.mp ha with h1 | h2
      · exact Nat.lt_succ_of_lt (hbound a h1 hau)
      · simp only [List.mem_singleton] at h2
        subst h2
        exact Nat.lt_succ_self day
  intro k
  induction k with
  | zero => omega
  | succ n ih =>
    intro _
    by_cases hn : n = 0
    · subst hn
      obtain ⟨s2, hca, hfu, hbound⟩ := fresh_step db u start hu hno
      refine ⟨s2, _, ?_, hfu, ?_, ?_, ?_⟩
      · show (match runCheckins uid start 0 db with
          | none => none
          | some s =>
            match create_attendance s uid (start + 0) with
            | .error _ => none
            | .ok (_, s2) => some s2) = some s2
        simp only [runCheckins, Nat.add_zero, hca]
      · simp [hfresh]
      · simp [hfresh]
      · simpa using hbound
    · obtain ⟨db2, u2, hrun, hfu2, hstreak, hlast, hbound⟩ :=
        ih (Nat.one_le_iff_ne_zero.mpr hn)
      obtain ⟨s2, hca, hfu3, hbound3⟩ := fresh_step db2 u2 (start + n) hfu2
        (fun a ha hau => hbound a ha hau)
      have hyes : isYesterday u2.last_att_date (start + n) = true := by
        rw [hlast]
        simp only [isYesterday, beq_iff_eq]
        omega
      rw [hyes] at hfu3
      simp only [if_true] at hfu3
      refine ⟨s2, ⟨u2.user_id, some (start + n), u2.current_streak + 1,
        u2.fcm_token, u2.persona⟩, ?_, hfu3, ?_, ?_, ?_⟩
      · show (match runCheckins uid start n db with
          | none => none
          | some s =>
            match create_attendance s uid (start + n) with
            | .error _ => none
            | .ok (_, s2) => some s2) = some s2
        rw [hrun]
        simp only [hca]
      · show u2.current_streak + 1 = n + 1
        omega
      · show some (start + n) = some (start + (n + 1) - 1)
        congr 1
      · intro a ha hau
        have := hbound3 a ha hau
        omega

/-- **C2**: after `recordAttendance` on a new day the streak invariant
holds: a check-in on the day after `last_att_date` increments
`current_streak`, any other new-day check-in resets it to 1, and
`last_att_date` becomes today; hence `N` consecutive daily check-ins from
a fresh run yield `current_streak = N`, and a gap of at least 2 days
resets the streak to 1 on the next check-in. -/
theorem streak_invariant :
    (∀ db uid today u,
      db.attendance.find?
        (fun a => a.user_id == uid && a.att_date == today) = none →
      findUser db uid = some u →
      ∃ db2, create_attendance db uid today = .ok (⟨uid, today⟩, db2) ∧
        findUser db2 uid = some
          { u with
            current_streak := if isYesterday u.last_att_date today then
                u.current_streak + 1 else 1,
            last_att_date := some today })
    ∧ (∀ db uid start u n,
      findUser db uid = some u →
      isYesterday u.last_att_date start = false →
      (∀ a ∈ db.attendance, a.user_id = uid → a.att_date < start) →
      1 ≤ n →
      ∃ db2 u2, runCheckins uid start n db = some db2 ∧
        findUser db2 uid = some u2 ∧ u2.current_streak = n ∧
        u2.last_att_date = some (start + n - 1))
    ∧ (∀ db uid today u g,
      db.attendance.find?
        (fun a => a.user_id == uid && a.att_date == today) = none →
      findUser db uid = some u →
      u.last_att_date = some g → g + 2 ≤ today →
      ∃ db2, create_attendance db uid today = .ok (⟨uid, today⟩, db2) ∧
        findUser db2 uid = some
          { u with current_streak := 1, last_att_date := some today }) := by
  have part1 : ∀ db uid today u,
      db.attendance.find?
        (fun a => a.user_id == uid && a.att_date == today) = none →
      findUser db uid = some u →
      ∃ db2, create_attendance db uid today = .ok (⟨uid, today⟩, db2) ∧
        findUser db2 uid = some
          { u with
            current_streak := if isYesterday u.last_att_date today then
                u.current_streak + 1 else 1,
            last_att_date := some today } := by
    intro db uid today u hnone hu
    exact ⟨_, create_attendance_fresh hnone hu,
      find?_map_user_update db.users uid u _ (fun _ => rfl) hu⟩
  refine ⟨part1, ?_, ?_⟩
  · intro db uid start u n hu hfresh hno hn
    obtain ⟨db2, u2, hrun, hfu, hstreak, hlast, _⟩ :=
      runCheckins_streak db uid start u hu hfresh hno n hn
    exact ⟨db2, u2, hrun, hfu, hstreak, hlast⟩
  · intro db uid today u g hnone hu hg hgap
    obtain ⟨db2, hca, hfu⟩ := part1 db uid today u hnone hu
    refine ⟨db2, hca, ?_⟩
    have : isYesterday u.last_att_date today = false := by
      rw [hg]
      simp only [isYesterday, beq_eq_false_iff_ne]
      omega
    rw [this] at hfu
    simpa using hfu

/-- Closed witness for `streak_invariant`: a fresh user checking in on
three consecutive days reaches streak 3 (and the step/gap parts applied
at day 10 / a 4-day gap). -/
theorem streak_invariant_witness :
    (∃ db2 u2,
      runCheckins 1 10 3
        { users := [⟨1, none, 0, none, none⟩], diaries := [],
          attendance := [], analyses := [], solutions := [], medals := [],
          achievements := [], nextId := 1 } = some db2 ∧
      findUser db2 1 = some u2 ∧ u2.current_streak = 3 ∧
      u2.last_att_date = some 12) ∧
    (∃ db2,
      create_attendance
        { users := [⟨1, some 6, 4, none, none⟩], diaries := [],
          attendance := [], analyses := [], solutions := [], medals := [],
          achievements := [], nextId := 1 } 1 10 = .ok (⟨1, 10⟩, db2) ∧
      findUser db2 1 = some ⟨1, some 10, 1, none, none⟩) := by
  constructor
  · exact streak_invariant.2.1
      { users := [⟨1, none, 0, none, none⟩], diaries := [],
        attendance := [], analyses := [], solutions := [], medals := [],
        achievements := [], nextId := 1 } 1 10 ⟨1, none, 0, none, none⟩ 3
      rfl rfl (by simp) (by omega)
  · exact streak_invariant.2.2
      { users := [⟨1, some 6, 4, none, none⟩], diaries := [],
        attendance := [], analyses := [], solutions := [], medals := [],
        achievements := [], nextId := 1 } 1 10 ⟨1, some 6, 4, none, none⟩ 6
      rfl rfl rfl (by omega)

/-! ## C8 -/

/-- **C8**: `create_attendance` is idempotent per (user, day): an existing
row for the pair is returned unchanged with no mutation at all; a second
call on the same day returns the same row and leaves the state exactly as
after the first call; and the at-most-one-attendance-row-per-(user, day)
invariant is preserved by every successful call. -/
theorem create_attendance_idempotent :
    (∀ db uid today a,
      db.attendance.find?
        (fun x => x.user_id == uid && x.att_date == today) = some a →
      create_attendance db uid today = .ok (a, db))
    ∧ (∀ db db2 uid today r,
      create_attendance db uid today = .ok (r, db2) →
      create_attendance db2 uid today = .ok (r, db2))
    ∧ (∀ db db2 uid today r u d,
      create_attendance db uid today = .ok (r, db2) →
      attCount db u d ≤ 1 → attCount db2 u d ≤ 1) := by
  refine ⟨fun db uid today a h => create_attendance_existing h, ?_, ?_⟩
  · intro db db2 uid today r h
    revert h
    unfold create_attendance
    cases hfind : db.attendance.find?
        (fun a => a.user_id == uid && a.att_date == today) with
    | some a =>
      intro h
      injection h with h
      injection h with h1 h2
      subst h1; subst h2
      rw [hfind]
    | none =>
      cases hu : findUser db uid with
      | none => intro h; exact absurd h (by simp)
      | some u =>
        intro h
        injection h with h
        injection h with h1 h2
        subst h1; subst h2
        have : (db.attendance ++ [(⟨uid, today⟩ : AttRow)]).find?
            (fun a => a.user_id == uid && a.att_date == today) =
            some ⟨uid, today⟩ := by
          rw [List.find?_append, hfind]
          simp
        rw [this]
  · intro db db2 uid today r u d h hc
    revert h
    unfold create_attendance
    cases hfind : db.attendance.find?
        (fun a => a.user_id == uid && a.att_date == today) with
    | some a =>
      intro h
      injection h with h
      injection h with h1 h2
      subst h2
      exact hc
    | none =>
      cases hu : findUser db uid with
      | none => intro h; exact absurd h (by simp)
      | some w =>
        intro h
        injection h with h
        injection h with h1 h2
        subst h2
        unfold attCount at hc ⊢
        simp only [List.filter_append]
        rw [List.length_append]
        by_cases hp : ((⟨uid, today⟩ : AttRow).user_id == u &&
            (⟨uid, today⟩ : AttRow).att_date == d) = true
        · simp only [Bool.and_eq_true, beq_iff_eq] at hp
          obtain ⟨hu2, hd2⟩ := hp
          subst hu2; subst hd2
          have hnil : db.attendance.filter
              (fun a => a.user_id == uid && a.att_date == today) = [] := by
            rw [List.filter_eq_nil_iff]
            exact fun x hx => List.find?_eq_none.mp hfind x hx
          rw [hnil]
          simp
        · have : ([(⟨uid, today⟩ : AttRow)].filter
              (fun a => a.user_id == u && a.att_date == d)) = [] := by
            simp only [List.filter, hp]
          rw [this]
          simpa using hc

/-- Closed witness for `create_attendance_idempotent`: a fresh check-in
followed by a repeat call on the same day returns the same row and state. -/
theorem create_attendance_idempotent_witness :
    create_attendance
      { users := [⟨1, none, 0, none, none⟩], diaries := [], attendance := [],
        analyses := [], solutions := [], medals := [], achievements := [],
        nextId := 1 } 1 5 =
      .ok (⟨1, 5⟩,
        { users := [⟨1, some 5, 1, none, none⟩], diaries := [],
          attendance := [⟨1, 5⟩], analyses := [], solutions := [],
          medals := [], achievements := [], nextId := 1 }) ∧
    create_attendance
      { users := [⟨1, some 5, 1, none, none⟩], diaries := [],
        attendance := [⟨1, 5⟩], analyses := [], solutions := [],
        medals := [], achievements := [], nextId := 1 } 1 5 =
      .ok (⟨1, 5⟩,
        { users := [⟨1, some 5, 1, none, none⟩], diaries := [],
          attendance := [⟨1, 5⟩], analyses := [], solutions := [],
          medals := [], achievements := [], nextId := 1 }) := by
  have h1 : create_attendance
      { users := [⟨1, none, 0, none, none⟩], diaries := [], attendance := [],
        analyses := [], solutions := [], medals := [], achievements := [],
        nextId := 1 } 1 5 =
      .ok (⟨1, 5⟩,
        { users := [⟨1, some 5, 1, none, none⟩], diaries := [],
          attendance := [⟨1, 5⟩], analyses := [], solutions := [],
          medals := [], achievements := [], nextId := 1 }) := by rfl
  exact ⟨h1, create_attendance_idempotent.2.1 _ _ 1 5 _ h1⟩

/-! ## C3 -/

/-- **C3**: the stored burnout category is decided by the user's diary
count at callback time: below 3 diaries the persisted category is the
sentinel `"NONE"` whatever the AI sent and no solution logs are created,
while the AI message is still stored; at 3 or more the AI category is
stored verbatim and one solution log per recommendation is created. -/
theorem receive_ai_result_threshold (db : DB) (r : AIAnalysisResult)
    (d : DiaryRow)
    (hfind : db.diaries.find? (fun x => x.diary_id == r.diary_id) = some d) :
    (diaryCount db d.user_id < 3 →
      (receive_ai_result db r).1.analyses =
        (⟨db.nextId, d.diary_id, r.primary_emotion, r.primary_score, "NONE",
          some r.ai_message, db.nextId⟩ : AnalysisRow) :: db.analyses ∧
      (receive_ai_result db r).1.solutions = db.solutions)
    ∧ (3 ≤ diaryCount db d.user_id →
      (receive_ai_result db r).1.analyses =
        (⟨db.nextId, d.diary_id, r.primary_emotion, r.primary_score,
          r.mbi_category, some r.ai_message, db.nextId⟩ : AnalysisRow) ::
          db.analyses ∧
      (receive_ai_result db r).1.solutions.map
          (fun s => (s.diary_id, s.activity_id)) =
        db.solutions.map (fun s => (s.diary_id, s.activity_id)) ++
          r.recommendations.map (fun x => (d.diary_id, x.activity_id))) := by
  constructor
  · intro h3
    have hn3 : ¬ 3 ≤ diaryCount db d.user_id := by omega
    unfold receive_ai_result storeAnalysisStep
    rw [hfind]
    simp only [if_pos h3, if_neg hn3]
    exact ⟨by rw [(medalNotificationStep_frame _ _).1],
      by rw [(medalNotificationStep_frame _ _).2.1]⟩
  · intro h3
    have hn3 : ¬ diaryCount db d.user_id < 3 := by omega
    unfold receive_ai_result storeAnalysisStep
    rw [hfind]
    simp only [if_pos h3, if_neg hn3]
    constructor
    · rw [(medalNotificationStep_frame _ _).1, (addSolutions_spec _ _ _).1]
    · rw [(medalNotificationStep_frame _ _).2.1, (addSolutions_spec _ _ _).2]

/-- Closed witness for `receive_ai_result_threshold`: a user with one
diary gets a `"NONE"` category and no solution logs even though the AI
sent `"EE"` and a recommendation, while the AI message is stored. -/
theorem receive_ai_result_threshold_witness :
    (receive_ai_result
      { users := [⟨1, none, 0, none, none⟩],
        diaries := [⟨1, 1, some "hi", none, "TEXT", none⟩],
        attendance := [], analyses := [], solutions := [], medals := [],
        achievements := [], nextId := 2 }
      ⟨1, "sad", 9, "EE", "msg", [⟨7⟩]⟩).1.analyses =
      [⟨2, 1, "sad", 9, "NONE", some "msg", 2⟩] ∧
    (receive_ai_result
      { users := [⟨1, none, 0, none, none⟩],
        diaries := [⟨1, 1, some "hi", none, "TEXT", none⟩],
        attendance := [], analyses := [], solutions := [], medals := [],
        achievements := [], nextId := 2 }
      ⟨1, "sad", 9, "EE", "msg", [⟨7⟩]⟩).1.solutions = [] := by
  have h := (receive_ai_result_threshold
    { users := [⟨1, none, 0, none, none⟩],
      diaries := [⟨1, 1, some "hi", none, "TEXT", none⟩],
      attendance := [], analyses := [], solutions := [], medals := [],
      achievements := [], nextId := 2 }
    ⟨1, "sad", 9, "EE", "msg", [⟨7⟩]⟩
    ⟨1, 1, some "hi", none, "TEXT", none⟩ rfl).1 (by decide)
  exact h

/-- Closed witness for `create_diary_atomic`: a concrete state where the
injected ledger fault makes the create roll back wholly. -/
theorem create_diary_atomic_witness :
    create_diary
      { users := [⟨1, none, 0, none, none⟩], diaries := [], attendance := [],
        analyses := [], solutions := [], medals := [], achievements := [],
        nextId := 1 }
      ⟨"TEXT", some "hello", none⟩ 1 none 5 true =
    (.error 500,
      { users := [⟨1, none, 0, none, none⟩], diaries := [], attendance := [],
        analyses := [], solutions := [], medals := [], achievements := [],
        nextId := 1 }) :=
  (create_diary_atomic
    { users := [⟨1, none, 0, none, none⟩], diaries := [], attendance := [],
      analyses := [], solutions := [], medals := [], achievements := [],
      nextId := 1 }
    ⟨"TEXT", some "hello", none⟩ 1 none 5 true).2.1 rfl

/-! ## C4 -/

/-- Frame: the solution-log loop leaves every other table unchanged. -/
lemma addSolutions_frame (recs : List AIRec) : ∀ (db : DB) (id : Nat),
    (addSolutions db id recs).users = db.users ∧
    (addSolutions db id recs).medals = db.medals ∧
    (addSolutions db id recs).achievements = db.achievements ∧
    (addSolutions db id recs).diaries = db.diaries := by
  induction recs with
  | nil => intro db id; exact ⟨rfl, rfl, rfl, rfl⟩
  | cons r rest ih => intro db id; exact ih _ _

/-- Frame: the committed callback portion leaves users, medals,
achievements and diaries unchanged. -/
lemma storeAnalysisStep_frame (db : DB) (r : AIAnalysisResult)
    (diary : DiaryRow) :
    (storeAnalysisStep db r diary).users = db.users ∧
    (storeAnalysisStep db r diary).medals = db.medals ∧
    (storeAnalysisStep db r diary).achievements = db.achievements ∧
    (storeAnalysisStep db r diary).diaries = db.diaries := by
  unfold storeAnalysisStep
  by_cases h : 3 ≤ diaryCount db diary.user_id
  · simp only [if_pos h]
    exact addSolutions_frame _ _ _
  · simp [if_neg h]

/-- Evaluation of the medal check when the burnout-to-NORMAL transition
condition over the two most recent analyses holds and the medal master row
exists. -/
lemma check_and_award_cases (db : DB) (uid : Nat) (cur prev : AnalysisRow)
    (m : MedalRow)
    (h2 : recentTwo db uid = [cur, prev])
    (hprev : burnout_states.contains prev.mbi_category = true)
    (hcur : cur.mbi_category = "NORMAL")
    (hm : db.medals.find? (fun x => x.medal_code == "RECOVERY_LIGHT") = some m) :
    check_and_award_recovery_medal db uid =
      match db.achievements.find?
          (fun a => a.user_id == uid && a.medal_id == m.medal_id) with
      | some _ => (none, db)
      | none =>
        (some m,
          { db with
            achievements := db.achievements ++
              [⟨db.nextId, uid, m.medal_id, false⟩],
            nextId := db.nextId + 1 }) := by
  unfold check_and_award_recovery_medal
  rw [h2]
  have hcond : (burnout_states.contains prev.mbi_category &&
      cur.mbi_category == "NORMAL") = true := by
    rw [hprev, hcur]
    rfl
  simp only [hcond, if_true, hm]

/-- **C4 counterexample**: a callback for which the two most recent
analyses show an `"EE"`-to-`"NORMAL"` transition, the recovery medal
exists and the user does not hold it, yet no Achievement row is created,
because the user has no FCM token and the handler runs the medal check
only inside the `if user and user.fcm_token:` block. -/
theorem medal_award_requires_fcm_token_cex :
    ((recentTwo (receive_ai_result
        { users := [⟨1, none, 0, none, none⟩],
          diaries := [⟨1, 1, some "a", none, "TEXT", none⟩,
            ⟨2, 1, some "b", none, "TEXT", none⟩,
            ⟨3, 1, some "c", none, "TEXT", none⟩],
          attendance := [],
          analyses := [⟨5, 2, "sad", 9, "EE", some "m", 5⟩],
          solutions := [], medals := [⟨5, "RECOVERY_LIGHT"⟩],
          achievements := [], nextId := 6 }
        ⟨3, "joy", 9, "NORMAL", "better", []⟩).1 1).map
      (fun a => a.mbi_category) = ["NORMAL", "EE"]) ∧
    (receive_ai_result
        { users := [⟨1, none, 0, none, none⟩],
          diaries := [⟨1, 1, some "a", none, "TEXT", none⟩,
            ⟨2, 1, some "b", none, "TEXT", none⟩,
            ⟨3, 1, some "c", none, "TEXT", none⟩],
          attendance := [],
          analyses := [⟨5, 2, "sad", 9, "EE", some "m", 5⟩],
          solutions := [], medals := [⟨5, "RECOVERY_LIGHT"⟩],
          achievements := [], nextId := 6 }
        ⟨3, "joy", 9, "NORMAL", "better", []⟩).1.achievements = [] := by
  constructor
  · rfl
  · rfl

/-- **C4 (amended)**: on an analysis callback whose user row exists *and
carries an FCM push token*, whenever the two most recent EmotionAnalysis
records after the insert show a burnout-set category immediately prior and
the sentinel `"NORMAL"` currently, and the recovery medal master row
exists, then: if the user does not already hold the medal exactly one new
Achievement row is created, and if they already hold it the achievements
are unchanged (no duplicate); the decision reads only the two most recent
records. -/
theorem receive_awards_recovery_medal (db : DB) (r : AIAnalysisResult)
    (d : DiaryRow) (u : UserRow) (cur prev : AnalysisRow) (m : MedalRow)
    (hfind : db.diaries.find? (fun x => x.diary_id == r.diary_id) = some d)
    (hu : findUser db d.user_id = some u)
    (htok : u.fcm_token.isSome = true)
    (h2 : recentTwo (storeAnalysisStep db r d) d.user_id = [cur, prev])
    (hprev : burnout_states.contains prev.mbi_category = true)
    (hcur : cur.mbi_category = "NORMAL")
    (hm : db.medals.find?
      (fun x => x.medal_code == "RECOVERY_LIGHT") = some m) :
    (db.achievements.find?
        (fun a => a.user_id == d.user_id && a.medal_id == m.medal_id) = none →
      (receive_ai_result db r).1.achievements =
        db.achievements ++
          [⟨(storeAnalysisStep db r d).nextId, d.user_id, m.medal_id, false⟩])
    ∧ (∀ a0, db.achievements.find?
        (fun a => a.user_id == d.user_id && a.medal_id == m.medal_id) = some a0 →
      (receive_ai_result db r).1.achievements = db.achievements) := by
  have hframe := storeAnalysisStep_frame db r d
  have hu2 : findUser (storeAnalysisStep db r d) d.user_id = some u := by
    unfold findUser
    rw [hframe.1]
    exact hu
  have hm2 : (storeAnalysisStep db r d).medals.find?
      (fun x => x.medal_code == "RECOVERY_LIGHT") = some m := by
    rw [hframe.2.1]
    exact hm
  have hcases := check_and_award_cases (storeAnalysisStep db r d) d.user_id
    cur prev m h2 hprev hcur hm2
  have hrec : receive_ai_result db r =
      (medalNotificationStep (storeAnalysisStep db r d) d.user_id,
        "Analysis & Solutions saved successfully") := by
    unfold receive_ai_result
    rw [hfind]
  have hstep : medalNotificationStep (storeAnalysisStep db r d) d.user_id =
      (check_and_award_recovery_medal (storeAnalysisStep db r d) d.user_id).2 := by
    unfold medalNotificationStep
    rw [hu2]
    simp only [htok, if_true]
  constructor
  · intro hnone
    have hnone2 : (storeAnalysisStep db r d).achievements.find?
        (fun a => a.user_id == d.user_id && a.medal_id == m.medal_id) = none := by
      rw [hframe.2.2.1]
      exact hnone
    rw [hrec]
    show (medalNotificationStep (storeAnalysisStep db r d) d.user_id).achievements = _
    rw [hstep, hcases, hnone2, hframe.2.2.1]
  · intro a0 hsome
    have hsome2 : (storeAnalysisStep db r d).achievements.find?
        (fun a => a.user_id == d.user_id && a.medal_id == m.medal_id) = some a0 := by
      rw [hframe.2.2.1]
      exact hsome
    rw [hrec]
    show (medalNotificationStep (storeAnalysisStep db r d) d.user_id).achievements = _
    rw [hstep, hcases, hsome2, hframe.2.2.1]

/-- Closed witness for `receive_awards_recovery_medal`: the same
transition as the counterexample but with an FCM token present creates
exactly one Achievement row. -/
theorem receive_awards_recovery_medal_witness :
    (receive_ai_result
        { users := [⟨1, none, 0, some "tok", none⟩],
          diaries := [⟨1, 1, some "a", none, "TEXT", none⟩,
            ⟨2, 1, some "b", none, "TEXT", none⟩,
            ⟨3, 1, some "c", none, "TEXT", none⟩],
          attendance := [],
          analyses := [⟨5, 2, "sad", 9, "EE", some "m", 5⟩],
          solutions := [], medals := [⟨5, "RECOVERY_LIGHT"⟩],
          achievements := [], nextId := 6 }
        ⟨3, "joy", 9, "NORMAL", "better", []⟩).1.achievements =
      [⟨7, 1, 5, false⟩] := by
  have h := (receive_awards_recovery_medal
    { users := [⟨1, none, 0, some "tok", none⟩],
      diaries := [⟨1, 1, some "a", none, "TEXT", none⟩,
        ⟨2, 1, some "b", none, "TEXT", none⟩,
        ⟨3, 1, some "c", none, "TEXT", none⟩],
      attendance := [],
      analyses := [⟨5, 2, "sad", 9, "EE", some "m", 5⟩],
      solutions := [], medals := [⟨5, "RECOVERY_LIGHT"⟩],
      achievements := [], nextId := 6 }
    ⟨3, "joy", 9, "NORMAL", "better", []⟩
    ⟨3, 1, some "c", none, "TEXT", none⟩
    ⟨1, none, 0, some "tok", none⟩
    ⟨6, 3, "joy", 9, "NORMAL", some "better", 6⟩
    ⟨5, 2, "sad", 9, "EE", some "m", 5⟩
    ⟨5, "RECOVERY_LIGHT"⟩
    rfl rfl rfl (by rfl) (by rfl) rfl rfl).1 rfl
  rw [h]
  rfl

/-! ## C5 -/

/-- **C5**: when the supplied content differs from the stored content or
the supplied keywords differ from the stored keywords (only explicitly
supplied fields are compared), the diary's EmotionAnalysis and all its
SolutionLog rows are deleted by the update, so after the edit the diary
has no emotion analysis and no solution logs until a re-analysis. -/
theorem update_content_change_invalidates_analysis (db : DB) (d : DiaryRow)
    (diary_in : DiaryUpdate) (img : Option String)
    (hch : is_content_changed diary_in d = true) :
    (update_diary_with_image db d diary_in img).2.2 = true ∧
    (update_diary_with_image db d diary_in img).1.analyses.find?
      (fun a => a.diary_id == d.diary_id) = none ∧
    (update_diary_with_image db d diary_in img).1.solutions.filter
      (fun s => s.diary_id == d.diary_id) = [] := by
  unfold update_diary_with_image
  simp only [hch, if_true]
  refine ⟨trivial, ?_, ?_⟩
  · rw [List.find?_eq_none]
    intro x hx
    have hq := (List.mem_filter.mp hx).2
    simp only [bne_iff_ne, ne_eq] at hq
    simp only [beq_iff_eq]
    exact hq
  · rw [List.filter_eq_nil_iff]
    intro x hx
    have hq := (List.mem_filter.mp hx).2
    simp only [bne_iff_ne, ne_eq] at hq
    simp only [beq_iff_eq]
    exact hq

/-- Closed witness for `update_content_change_invalidates_analysis`: a
content edit wipes the stored analysis and solution log. -/
theorem update_content_change_invalidates_analysis_witness :
    (update_diary_with_image
      { users := [⟨1, none, 0, none, none⟩],
        diaries := [⟨1, 1, some "old", none, "TEXT", none⟩],
        attendance := [],
        analyses := [⟨1, 1, "sad", 9, "EE", some "m", 1⟩],
        solutions := [⟨1, 1, 7, false, false⟩], medals := [],
        achievements := [], nextId := 2 }
      ⟨1, 1, some "old", none, "TEXT", none⟩
      ⟨none, some "new", none⟩ none).2.2 = true ∧
    (update_diary_with_image
      { users := [⟨1, none, 0, none, none⟩],
        diaries := [⟨1, 1, some "old", none, "TEXT", none⟩],
        attendance := [],
        analyses := [⟨1, 1, "sad", 9, "EE", some "m", 1⟩],
        solutions := [⟨1, 1, 7, false, false⟩], medals := [],
        achievements := [], nextId := 2 }
      ⟨1, 1, some "old", none, "TEXT", none⟩
      ⟨none, some "new", none⟩ none).1.analyses.find?
        (fun a => a.diary_id == 1) = none ∧
    (update_diary_with_image
      { users := [⟨1, none, 0, none, none⟩],
        diaries := [⟨1, 1, some "old", none, "TEXT", none⟩],
        attendance := [],
        analyses := [⟨1, 1, "sad", 9, "EE", some "m", 1⟩],
        solutions := [⟨1, 1, 7, false, false⟩], medals := [],
        achievements := [], nextId := 2 }
      ⟨1, 1, some "old", none, "TEXT", none⟩
      ⟨none, some "new", none⟩ none).1.solutions.filter
        (fun s => s.diary_id == 1) = [] :=
  update_content_change_invalidates_analysis
    { users := [⟨1, none, 0, none, none⟩],
      diaries := [⟨1, 1, some "old", none, "TEXT", none⟩],
      attendance := [],
      analyses := [⟨1, 1, "sad", 9, "EE", some "m", 1⟩],
      solutions := [⟨1, 1, 7, false, false⟩], medals := [],
      achievements := [], nextId := 2 }
    ⟨1, 1, some "old", none, "TEXT", none⟩
    ⟨none, some "new", none⟩ none (by decide)

/-! ## C10 -/

/-- **C10**: a field supplied as null is treated exactly like an omitted
field: the applied update excludes unset and null values, so content,
keywords and input_type are never cleared to null by an update. -/
theorem update_null_fields_preserved (db : DB) (d : DiaryRow)
    (diary_in : DiaryUpdate) (img : Option String) :
    (diary_in.content = none →
      (update_diary_with_image db d diary_in img).2.1.content = d.content) ∧
    (diary_in.keywords = none →
      (update_diary_with_image db d diary_in img).2.1.keywords = d.keywords) ∧
    (diary_in.input_type = none →
      (update_diary_with_image db d diary_in img).2.1.input_type =
        d.input_type) := by
  refine ⟨?_, ?_, ?_⟩ <;>
    intro h <;>
    cases img <;>
    simp [update_diary_with_image, applyImage, applyUpdate, h]

/-- Closed witness for `update_null_fields_preserved`: an update carrying
only an image leaves content, keywords and input_type untouched. -/
theorem update_null_fields_preserved_witness :
    (update_diary_with_image
      { users := [], diaries := [⟨1, 1, some "keep", some [("k", "v")], "TEXT", none⟩],
        attendance := [], analyses := [], solutions := [], medals := [],
        achievements := [], nextId := 2 }
      ⟨1, 1, some "keep", some [("k", "v")], "TEXT", none⟩
      ⟨none, none, none⟩ (some "new.jpg")).2.1.content = some "keep" ∧
    (update_diary_with_image
      { users := [], diaries := [⟨1, 1, some "keep", some [("k", "v")], "TEXT", none⟩],
        attendance := [], analyses := [], solutions := [], medals := [],
        achievements := [], nextId := 2 }
      ⟨1, 1, some "keep", some [("k", "v")], "TEXT", none⟩
      ⟨none, none, none⟩ (some "new.jpg")).2.1.keywords = some [("k", "v")] ∧
    (update_diary_with_image
      { users := [], diaries := [⟨1, 1, some "keep", some [("k", "v")], "TEXT", none⟩],
        attendance := [], analyses := [], solutions := [], medals := [],
        achievements := [], nextId := 2 }
      ⟨1, 1, some "keep", some [("k", "v")], "TEXT", none⟩
      ⟨none, none, none⟩ (some "new.jpg")).2.1.input_type = "TEXT" := by
  have h := update_null_fields_preserved
    { users := [], diaries := [⟨1, 1, some "keep", some [("k", "v")], "TEXT", none⟩],
      attendance := [], analyses := [], solutions := [], medals := [],
      achievements := [], nextId := 2 }
    ⟨1, 1, some "keep", some [("k", "v")], "TEXT", none⟩
    ⟨none, none, none⟩ (some "new.jpg")
  exact ⟨h.1 rfl, h.2.1 rfl, h.2.2 rfl⟩

/-! ## C6 -/

/-- **C6** fails on the code: the analysis request scheduled by the create
endpoint carries three arguments (diary id, user id, resolved persona) and
binds `request_diary_analysis`'s signature, but the update endpoint's
content-change branch schedules only `(diary_id, user_id)` — missing the
required `persona` parameter, so the background invocation cannot bind and
raises `TypeError` instead of sending a request. The image-only branch
schedules nothing and (shown on a concrete state) leaves the stored
analysis and solution rows intact. -/
theorem update_reanalysis_task_shape (diary_id uid : Nat)
    (persona userPersona : Option Nat) :
    analysis_task_binds
      (create_scheduled_analysis_args diary_id uid persona userPersona) = true ∧
    update_scheduled_analysis_args true diary_id uid = [[diary_id, uid]] ∧
    analysis_task_binds [diary_id, uid] = false ∧
    update_scheduled_analysis_args false diary_id uid = [] ∧
    (update_diary_with_image
      { users := [], diaries := [⟨1, 1, some "same", none, "TEXT", some "old.jpg"⟩],
        attendance := [],
        analyses := [⟨1, 1, "sad", 9, "EE", some "m", 1⟩],
        solutions := [⟨1, 1, 7, false, false⟩], medals := [],
        achievements := [], nextId := 2 }
      ⟨1, 1, some "same", none, "TEXT", some "old.jpg"⟩
      ⟨none, none, none⟩ (some "new.jpg")).2.2 = false ∧
    (update_diary_with_image
      { users := [], diaries := [⟨1, 1, some "same", none, "TEXT", some "old.jpg"⟩],
        attendance := [],
        analyses := [⟨1, 1, "sad", 9, "EE", some "m", 1⟩],
        solutions := [⟨1, 1, 7, false, false⟩], medals := [],
        achievements := [], nextId := 2 }
      ⟨1, 1, some "same", none, "TEXT", some "old.jpg"⟩
      ⟨none, none, none⟩ (some "new.jpg")).1.analyses =
      [⟨1, 1, "sad", 9, "EE", some "m", 1⟩] ∧
    (update_diary_with_image
      { users := [], diaries := [⟨1, 1, some "same", none, "TEXT", some "old.jpg"⟩],
        attendance := [],
        analyses := [⟨1, 1, "sad", 9, "EE", some "m", 1⟩],
        solutions := [⟨1, 1, 7, false, false⟩], medals := [],
        achievements := [], nextId := 2 }
      ⟨1, 1, some "same", none, "TEXT", some "old.jpg"⟩
      ⟨none, none, none⟩ (some "new.jpg")).1.solutions =
      [⟨1, 1, 7, false, false⟩] := by
  refine ⟨rfl, rfl, rfl, rfl, rfl, rfl, rfl⟩

/-! ## C7 -/

/-- **C7** fails on the code: the callback handler inserts an
EmotionAnalysis row unconditionally and `diary_id` carries no unique
constraint, so a repeated identical callback for the same diary leaves two
EmotionAnalysis rows attached to it (one per callback), violating the
declared 0..1 relationship. -/
theorem duplicate_callback_two_analyses :
    ((receive_ai_result
        { users := [⟨1, none, 0, none, none⟩],
          diaries := [⟨1, 1, some "hi", none, "TEXT", none⟩],
          attendance := [], analyses := [], solutions := [], medals := [],
          achievements := [], nextId := 2 }
        ⟨1, "sad", 9, "EE", "m", []⟩).1.analyses.filter
      (fun a => a.diary_id == 1)).length = 1 ∧
    ((receive_ai_result
        (receive_ai_result
          { users := [⟨1, none, 0, none, none⟩],
            diaries := [⟨1, 1, some "hi", none, "TEXT", none⟩],
            attendance := [], analyses := [], solutions := [], medals := [],
            achievements := [], nextId := 2 }
          ⟨1, "sad", 9, "EE", "m", []⟩).1
        ⟨1, "sad", 9, "EE", "m", []⟩).1.analyses.filter
      (fun a => a.diary_id == 1)).length = 2 := by
  refine ⟨rfl, rfl⟩

/-! ## C9 -/

/-- **C9** fails on the code: `delete_diary` calls the external image
delete with no exception handler before the row delete and commit, so an
image-deletion failure aborts the whole operation and the diary row (with
its analysis and solution logs) survives; only when the image delete
succeeds (or there is no image) is the diary removed with its cascade. -/
theorem delete_diary_blocked_by_image_failure :
    delete_diary
      { users := [⟨1, none, 0, none, none⟩],
        diaries := [⟨1, 1, some "t", none, "TEXT", some "url"⟩],
        attendance := [],
        analyses := [⟨1, 1, "sad", 9, "EE", some "m", 1⟩],
        solutions := [⟨1, 1, 7, false, false⟩], medals := [],
        achievements := [], nextId := 2 } 1 1 false =
      (.error 500,
        { users := [⟨1, none, 0, none, none⟩],
          diaries := [⟨1, 1, some "t", none, "TEXT", some "url"⟩],
          attendance := [],
          analyses := [⟨1, 1, "sad", 9, "EE", some "m", 1⟩],
          solutions := [⟨1, 1, 7, false, false⟩], medals := [],
          achievements := [], nextId := 2 }) ∧
    (delete_diary
      { users := [⟨1, none, 0, none, none⟩],
        diaries := [⟨1, 1, some "t", none, "TEXT", some "url"⟩],
        attendance := [],
        analyses := [⟨1, 1, "sad", 9, "EE", some "m", 1⟩],
        solutions := [⟨1, 1, 7, false, false⟩], medals := [],
        achievements := [], nextId := 2 } 1 1 true).1 = .ok () ∧
    (delete_diary
      { users := [⟨1, none, 0, none, none⟩],
        diaries := [⟨1, 1, some "t", none, "TEXT", some "url"⟩],
        attendance := [],
        analyses := [⟨1, 1, "sad", 9, "EE", some "m", 1⟩],
        solutions := [⟨1, 1, 7, false, false⟩], medals := [],
        achievements := [], nextId := 2 } 1 1 true).2.diaries = [] ∧
    (delete_diary
      { users := [⟨1, none, 0, none, none⟩],
        diaries := [⟨1, 1, some "t", none, "TEXT", some "url"⟩],
        attendance := [],
        analyses := [⟨1, 1, "sad", 9, "EE", some "m", 1⟩],
        solutions := [⟨1, 1, 7, false, false⟩], medals := [],
        achievements := [], nextId := 2 } 1 1 true).2.analyses = [] ∧
    (delete_diary
      { users := [⟨1, none, 0, none, none⟩],
        diaries := [⟨1, 1, some "t", none, "TEXT", some "url"⟩],
        attendance := [],
        analyses := [⟨1, 1, "sad", 9, "EE", some "m", 1⟩],
        solutions := [⟨1, 1, 7, false, false⟩], medals := [],
        achievements := [], nextId := 2 } 1 1 true).2.solutions = [] := by
  refine ⟨rfl, rfl, rfl, rfl, rfl⟩
